import Mathlib

/-!
# Verification of `davinci_sync.py` (`generate_ics`)

A shallow embedding of the converter `generate_ics` from `davinci_sync.py`.
The Python function receives a parsed JSON payload (a Python value made of
`None`, booleans, numbers, strings, lists and string-keyed dicts), walks it
with `dict.get`, `in`, subscripting and iteration, and builds the list of
text lines of an ICS file.  We model Python values with the inductive type
`Json`, fallible Python operations with `Except PyErr`, wall-clock handling
(`datetime.strptime` with format `"%Y%m%d%H%M"`, `pytz` Europe/Berlin
localization, conversion to UTC) with executable arithmetic on Gregorian
dates, and the result of the function (`False` with no file written, or
`True` with the file content) with `GenResult`.

Scope notes for the library models, stated once here:
* `strptime` is modelled after CPython's `_strptime` regex for
  `%Y%m%d%H%M` (ordered alternatives with backtracking, then the
  "unconverted data remains" length check, then `datetime` range
  validation).  Only ASCII digits are modelled.
* `pytz.timezone("Europe/Berlin")` is modelled with the EU daylight-saving
  rule (DST between the last Sunday of March, 03:00 wall clock, and the
  last Sunday of October, 02:00 wall clock; UTC offset +2h inside DST and
  +1h outside, `localize(is_dst=False)` resolving gap/ambiguous times to
  standard time).  This matches `pytz` for the years the schedule can
  realistically contain; pre-1996 historical German rules and the pre-1893
  LMT offset are out of model scope.  `pytz.localize` probes `dt ± 1 day`,
  so it raises `OverflowError` exactly when the local calendar date is
  0001-01-01 or 9999-12-31; this is modelled by `localizeOk`.
* Python `str.lower` is modelled on ASCII letters, and `repr` of
  containers (reachable only through `str`-formatting of list/dict-valued
  fields) uses single quotes with the common escapes.
* Logging and the actual file write are out of scope; `GenResult.success`
  carries the exact text lines that would be joined and written, and
  `GenResult.failure` is the `return False` path where no file is touched.
-/

/-- A parsed JSON value, i.e. the Python values `generate_ics` can receive:
`None`, `bool`, `int`, `str`, `list`, and string-keyed `dict`. -/
inductive Json where
  | null : Json
  | jbool : Bool → Json
  | jnum : Int → Json
  | jstr : String → Json
  | jarr : List Json → Json
  | jobj : List (String × Json) → Json

/-- The kinds of uncaught Python exceptions the embedded code can raise. -/
inductive PyErr where
  | typeError : PyErr
  | attributeError : PyErr
  | keyError : PyErr
  | indexError : PyErr
deriving DecidableEq

/-- Python truthiness of a value (`bool(x)`). -/
def truthy : Json → Bool
  | .null => false
  | .jbool b => b
  | .jnum n => n != 0
  | .jstr s => s != ""
  | .jarr xs => !xs.isEmpty
  | .jobj kvs => !kvs.isEmpty

/-- First-match association-list lookup, the model of a Python dict built
from parsed JSON (such dicts have no duplicate keys). -/
def lookupKey (kvs : List (String × Json)) (k : String) : Option Json :=
  match kvs with
  | [] => none
  | (k', v) :: rest => if k' = k then some v else lookupKey rest k

/-- Python `o.get(k, dflt)`: dict lookup with default; any non-dict value
has no `get` attribute and raises `AttributeError`. -/
def pyGet (o : Json) (k : String) (dflt : Json) : Except PyErr Json :=
  match o with
  | .jobj kvs => .ok ((lookupKey kvs k).getD dflt)
  | _ => .error .attributeError

/-- Python string equality test `v == s` for a string literal `s`: equality
between a `str` and any other type is `False` (no coercion). -/
def pyEqStr (v : Json) (s : String) : Bool :=
  match v with
  | .jstr t => t = s
  | _ => false

/-- Predicate `isPrefixB n h`: `n` is a prefix of `h` (on character lists). -/
def isPrefixB : List Char → List Char → Bool
  | [], _ => true
  | _ :: _, [] => false
  | a :: as, b :: bs => a = b && isPrefixB as bs

/-- Predicate `isInfixB n h`: `n` occurs contiguously in `h`; Python's substring
operator `n in h` on strings. -/
def isInfixB (n : List Char) : List Char → Bool
  | [] => n.isEmpty
  | c :: rest => isPrefixB n (c :: rest) || isInfixB n rest

/-- Python `needle in hay` for strings. -/
def substrB (needle hay : String) : Bool :=
  isInfixB needle.toList hay.toList

/-- Python `k in o` for a string `k`: substring test on `str`, element
test on `list`, key test on `dict`, `TypeError` otherwise. -/
def pyContains (o : Json) (k : String) : Except PyErr Bool :=
  match o with
  | .jobj kvs => .ok (lookupKey kvs k).isSome
  | .jstr s => .ok (substrB k s)
  | .jarr xs => .ok (xs.any (fun x => pyEqStr x k))
  | _ => .error .typeError

/-- Python `o[k]` for a string key `k`: dict lookup (raising `KeyError`
when absent), `TypeError` on every other type. -/
def pySubscript (o : Json) (k : String) : Except PyErr Json :=
  match o with
  | .jobj kvs =>
    match lookupKey kvs k with
    | some v => .ok v
    | none => .error .keyError
  | _ => .error .typeError

/-- Python `o[0]`: first list element (`IndexError` when empty), first
character of a `str`, `KeyError` on a string-keyed dict, `TypeError`
otherwise. -/
def pyIndexZero (o : Json) : Except PyErr Json :=
  match o with
  | .jarr [] => .error .indexError
  | .jarr (x :: _) => .ok x
  | .jstr s =>
    match s.toList with
    | [] => .error .indexError
    | c :: _ => .ok (.jstr (String.mk [c]))
  | .jobj _ => .error .keyError
  | _ => .error .typeError

/-- Python iteration `for x in o`: list elements, characters of a `str`,
keys of a `dict`, `TypeError` otherwise. -/
def pyIter : Json → Except PyErr (List Json)
  | .jarr xs => .ok xs
  | .jstr s => .ok (s.toList.map (fun c => .jstr (String.mk [c])))
  | .jobj kvs => .ok (kvs.map (fun kv => .jstr kv.fst))
  | _ => .error .typeError

/-- Escapes used by the model of Python `repr` on strings. -/
def reprEscape (s : String) : String :=
  String.join (s.toList.map (fun c =>
    if c = '\\' then "\\\\"
    else if c.toNat = 39 then "\\x27"
    else if c = '\n' then "\\n"
    else if c = '\t' then "\\t"
    else if c = '\r' then "\\r"
    else String.mk [c]))

/-- Model of Python `repr` as used by `str` on containers (always
single-quoting strings; exotic control characters out of model scope). -/
def pyRepr : Json → String
  | .null => "None"
  | .jbool true => "True"
  | .jbool false => "False"
  | .jnum n => toString n
  | .jstr s => "\x27" ++ reprEscape s ++ "\x27"
  | .jarr xs =>
    "[" ++ String.intercalate ", " (xs.attach.map (fun x => pyRepr x.1)) ++ "]"
  | .jobj kvs =>
    "\x7b" ++
      String.intercalate ", "
        (kvs.attach.map (fun kv =>
          "\x27" ++ reprEscape kv.1.1 ++ "\x27: " ++ pyRepr kv.1.2)) ++
      "\x7d"
termination_by j => sizeOf j
decreasing_by
  · have := List.sizeOf_lt_of_mem x.2
    simp only [Json.jarr.sizeOf_spec]
    omega
  · have h1 := List.sizeOf_lt_of_mem kv.2
    have h2 : sizeOf kv.1.2 < sizeOf kv.1 := by
      obtain ⟨a, b⟩ := kv.1
      simp only [Prod.mk.sizeOf_spec]
      omega
    simp only [Json.jobj.sizeOf_spec]
    omega

/-- Python `str(o)`: identity on `str`, `repr`-style on containers. -/
def pyStr : Json → String
  | .jstr s => s
  | o => pyRepr o

/-- Python `o.lower()`: ASCII lowercasing of a `str`; `AttributeError` on
any other type (this is line 76 of the source, outside the `try` block). -/
def pyLower (o : Json) : Except PyErr String :=
  match o with
  | .jstr s => .ok (String.mk (s.toList.map Char.toLower))
  | _ => .error .attributeError

/-- The values of a list if they are all strings (Python `str.join`
raises `TypeError` on a non-`str` element). -/
def strList : List Json → Option (List String)
  | [] => some []
  | .jstr s :: rest => (strList rest).map (fun ss => s :: ss)
  | _ :: _ => none

/-- Python `sep.join(o)`: iterate `o` and concatenate its (necessarily
`str`) elements separated by `sep`. -/
def pyJoin (sep : String) (o : Json) : Except PyErr String := do
  let items ← pyIter o
  match strList items with
  | some ss => pure (String.intercalate sep ss)
  | none => .error .typeError

/-! ## `datetime.strptime(s, "%Y%m%d%H%M")`

CPython's `_strptime` compiles the format into the regex
`(\d\d\d\d)(1[0-2]|0[1-9]|[1-9])(3[01]|[12]\d|0[1-9]|[1-9])(2[0-3]|[0-1]\d|\d)([0-5]\d|\d)`,
matches it at the start of the string with ordered-alternative
backtracking, raises `ValueError` when the match does not consume the
whole string ("unconverted data remains"), and finally the `datetime`
constructor validates the day against the month length and the year
against `MINYEAR = 1`.  Both `ValueError`s are caught by the caller's
`try`, so the model only distinguishes success from failure. -/

/-- Match a fixed run of digits, each constrained to an inclusive decimal
range, returning the parsed value and the remaining characters. -/
def matchDigits (acc : Nat) : List (Nat × Nat) → List Char → Option (Nat × List Char)
  | [], cs => some (acc, cs)
  | _ :: _, [] => none
  | (lo, hi) :: spec, c :: cs =>
    if '0' ≤ c && c ≤ '9' && lo ≤ c.toNat - 48 && c.toNat - 48 ≤ hi then
      matchDigits (acc * 10 + (c.toNat - 48)) spec cs
    else
      none

/-- All alternatives of one regex group that match a prefix of `cs`, in
the order the regex lists them. -/
def groupCandidates (alts : List (List (Nat × Nat))) (cs : List Char) :
    List (Nat × List Char) :=
  alts.filterMap (fun a => matchDigits 0 a cs)

/-- First `some` in a list, i.e. the first backtracking branch that
succeeds. -/
def firstSome {α : Type} : List (Option α) → Option α
  | [] => none
  | some a :: _ => some a
  | none :: rest => firstSome rest

/-- Regex group `1[0-2]|0[1-9]|[1-9]` for `%m`. -/
def monthAlts : List (List (Nat × Nat)) :=
  [[(1, 1), (0, 2)], [(0, 0), (1, 9)], [(1, 9)]]

/-- Regex group `3[01]|[12]\d|0[1-9]|[1-9]` for `%d`. -/
def dayAlts : List (List (Nat × Nat)) :=
  [[(3, 3), (0, 1)], [(1, 2), (0, 9)], [(0, 0), (1, 9)], [(1, 9)]]

/-- Regex group `2[0-3]|[0-1]\d|\d` for `%H`. -/
def hourAlts : List (List (Nat × Nat)) :=
  [[(2, 2), (0, 3)], [(0, 1), (0, 9)], [(0, 9)]]

/-- Regex group `[0-5]\d|\d` for `%M`. -/
def minuteAlts : List (List (Nat × Nat)) :=
  [[(0, 5), (0, 9)], [(0, 9)]]

/-- Depth-first search over the month/day/hour/minute groups in regex
order: the first assignment under which every group matches, regardless
of leftover input (the regex has no end anchor; the length check comes
afterwards). -/
def matchTail (cs : List Char) : Option (Nat × Nat × Nat × Nat × List Char) :=
  firstSome ((groupCandidates monthAlts cs).map (fun pm =>
    firstSome ((groupCandidates dayAlts pm.2).map (fun pd =>
      firstSome ((groupCandidates hourAlts pd.2).map (fun ph =>
        firstSome ((groupCandidates minuteAlts ph.2).map (fun pmin =>
          some (pm.1, pd.1, ph.1, pmin.1, pmin.2)))))))))

/-- Gregorian leap year. -/
def isLeap (y : Nat) : Bool :=
  (y % 4 = 0 && y % 100 ≠ 0) || y % 400 = 0

/-- Length of a month. -/
def daysInMonth (y m : Nat) : Nat :=
  if m = 2 then (if isLeap y then 29 else 28)
  else if m = 4 || m = 6 || m = 9 || m = 11 then 30
  else 31

/-- Model of `datetime.strptime(s, "%Y%m%d%H%M")`: `some (Y, m, d, H, M)` on
success, `none` when either the regex match, the leftover check or the
`datetime` constructor fails. -/
def strptimeYmdHM (s : String) : Option (Nat × Nat × Nat × Nat × Nat) :=
  match matchDigits 0 [(0, 9), (0, 9), (0, 9), (0, 9)] s.toList with
  | none => none
  | some (y, cs1) =>
    match matchTail cs1 with
    | none => none
    | some (m, d, h, mi, rest) =>
      if rest.isEmpty && 1 ≤ y && d ≤ daysInMonth y m then
        some (y, m, d, h, mi)
      else
        none

/-! ## Gregorian day arithmetic and the Europe/Berlin offset -/

/-- Days from 0000-03-01 to year `y`, month `m`, day `d` (Howard
Hinnant's `days_from_civil`, shifted so the count is a `Nat` for every
year ≥ 0). -/
def daysFromCivil (y m d : Nat) : Nat :=
  let y' := if m ≤ 2 then y - 1 else y
  let era := y' / 400
  let yoe := y' % 400
  let mp := if m > 2 then m - 3 else m + 9
  let doy := (153 * mp + 2) / 5 + d - 1
  let doe := yoe * 365 + yoe / 4 - yoe / 100 + doy
  era * 146097 + doe

/-- Inverse of `daysFromCivil` (Hinnant's `civil_from_days`). -/
def civilFromDays (z : Nat) : Nat × Nat × Nat :=
  let era := z / 146097
  let doe := z % 146097
  let yoe := (doe - doe / 1460 + doe / 36524 - doe / 146096) / 365
  let y := yoe + era * 400
  let doy := doe - (365 * yoe + yoe / 4 - yoe / 100)
  let mp := (5 * doy + 2) / 153
  let d := doy - (153 * mp + 2) / 5 + 1
  let m := if mp < 10 then mp + 3 else mp - 9
  (if m ≤ 2 then y + 1 else y, m, d)

/-- Minutes from 0000-03-01T00:00 to the local wall-clock instant. -/
def minutesOf (y m d hh mi : Nat) : Nat :=
  daysFromCivil y m d * 1440 + hh * 60 + mi

/-- Day of month of the last Sunday of a 31-day month (0000-03-01 was a
Wednesday, so `(daysFromCivil y m d + 3) % 7` is the weekday with
Sunday = 0). -/
def lastSunday (y m : Nat) : Nat :=
  31 - (daysFromCivil y m 31 + 3) % 7

/-- Europe/Berlin daylight saving for a naive wall-clock instant under
`pytz`'s `localize(is_dst=False)`: DST iff the instant is at or after
03:00 on the last Sunday of March and strictly before 02:00 on the last
Sunday of October (gap and ambiguous times resolve to standard time). -/
def inBerlinDst (y m d hh mi : Nat) : Bool :=
  minutesOf y 3 (lastSunday y 3) 3 0 ≤ minutesOf y m d hh mi &&
  minutesOf y m d hh mi < minutesOf y 10 (lastSunday y 10) 2 0

/-- UTC offset of Europe/Berlin in minutes at a local wall-clock instant. -/
def berlinOffsetMinutes (y m d hh mi : Nat) : Nat :=
  if inBerlinDst y m d hh mi then 120 else 60

/-- Because `pytz`'s `DstTzInfo.localize` probes `dt + timedelta(days=-1)` and
`dt + timedelta(days=1)` before anything else, so it raises
`OverflowError` (caught by the caller's `try`) exactly when the local
date is `datetime.min`'s or `datetime.max`'s date. -/
def localizeOk (y m d : Nat) : Bool :=
  daysFromCivil 1 1 2 ≤ daysFromCivil y m d &&
  daysFromCivil y m d ≤ daysFromCivil 9999 12 30

/-- Minutes from 0000-03-01T00:00 to the UTC instant corresponding to the
given Europe/Berlin wall-clock instant (`astimezone(pytz.utc)`). -/
def utcMinutes (y m d hh mi : Nat) : Nat :=
  minutesOf y m d hh mi - berlinOffsetMinutes y m d hh mi

/-- Decimal with at least two digits. -/
def pad2 (n : Nat) : String :=
  if n < 10 then "0" ++ toString n else toString n

/-- Decimal with at least four digits. -/
def pad4 (n : Nat) : String :=
  if n < 1000 then
    (if n < 100 then (if n < 10 then "000" else "00") else "0") ++ toString n
  else toString n

/-- Model of `astimezone(pytz.utc).strftime("%Y%m%dT%H%M%SZ")` for a localized
wall-clock instant (seconds are always zero). -/
def utcFormat (y m d hh mi : Nat) : String :=
  let t := utcMinutes y m d hh mi
  let c := civilFromDays (t / 1440)
  pad4 c.1 ++ pad2 c.2.1 ++ pad2 c.2.2 ++ "T" ++
    pad2 (t % 1440 / 60) ++ pad2 (t % 60) ++ "00Z"

/-! ## The converter (`generate_ics`, lines 30–139 of `davinci_sync.py`) -/

/-- Line 108's `subject.replace` with a space and an empty string: every space character removed (line 108). -/
def removeSpaces (s : String) : String :=
  String.mk (s.toList.filter (fun c => c != ' '))

/-- Line 112's newline escaping of the description. -/
def escapeNl (s : String) : String :=
  String.join (s.toList.map (fun c => if c = '\n' then "\\n" else String.mk [c]))

/-- The fixed VCALENDAR header lines (lines 41–49). -/
def icsHeader : List String :=
  ["BEGIN:VCALENDAR",
   "VERSION:2.0",
   "PRODID:-//DaVinci to ICS//NONSGML v1.0//EN",
   "CALSCALE:GREGORIAN",
   "METHOD:PUBLISH",
   "X-WR-CALNAME:DaVinci Stundenplan",
   "X-WR-TIMEZONE:Europe/Berlin"]

/-- The body of the per-date `try` block (lines 94–128): parse the
concatenated date/time strings, localize to Europe/Berlin, convert to
UTC, build the UID, and emit one VEVENT block.  Every exception raised
inside the block (`ValueError` from `strptime`/`datetime`,
`OverflowError` from `localize`, `AttributeError` from
`subject.replace` on a non-`str` subject) is caught by the
`except Exception` at line 130, so the model returns `none` for a
skipped date and `some` block otherwise.  `now` is the
`datetime.now(pytz.utc)` timestamp already formatted (line 110). -/
def tryDate (subject start_time_str end_time_str : Json)
    (final_title description : String) (room : Json) (now : String)
    (is_cancelled : Bool) (date_str : Json) : Option (List String) :=
  let start_dt_str := pyStr date_str ++ pyStr start_time_str
  let end_dt_str := pyStr date_str ++ pyStr end_time_str
  match strptimeYmdHM start_dt_str, strptimeYmdHM end_dt_str with
  | some (ys, ms, ds, hs, mins), some (ye, me, de, he, mine) =>
    if localizeOk ys ms ds && localizeOk ye me de then
      match subject with
      | .jstr subj =>
        some (["BEGIN:VEVENT",
               "UID:davinci-" ++ removeSpaces subj ++ "-" ++ pyStr date_str ++
                 "-" ++ pyStr start_time_str ++ "@sync",
               "DTSTAMP:" ++ now,
               "DTSTART:" ++ utcFormat ys ms ds hs mins,
               "DTEND:" ++ utcFormat ye me de he mine,
               "SUMMARY:" ++ final_title,
               "LOCATION:" ++ pyStr room,
               "DESCRIPTION:" ++ escapeNl description] ++
              (if is_cancelled then ["STATUS:CANCELLED"] else []) ++
              ["END:VEVENT"])
      | _ => none
    else none
  | _, _ => none

/-- Line 52, `lesson.get("subjectCode", lesson.get("courseTitle", "Unbekannt"))`: the display-subject fallback chain; Python evaluates the inner
`get` first. -/
def subjectExpr (lesson : Json) : Except PyErr Json := do
  let courseDflt ← pyGet lesson "courseTitle" (Json.jstr "Unbekannt")
  pyGet lesson "subjectCode" courseDflt

/-- Line 57, `rooms[0] if rooms else ""`: conditional expression on the
truthiness of the room list. -/
def roomExpr (rooms : Json) : Except PyErr Json :=
  if truthy rooms then pyIndexZero rooms else pure (Json.jstr "")

/-- The `if changes:` block (lines 62–77): note accumulation and the
cancellation/substitution classification, including the uncaught
`caption.lower()` of line 76. -/
def interpretChanges (changes : Json) : Except PyErr (String × Bool × Bool) := do
  if truthy changes then do
    let caption ← pyGet changes "caption" (Json.jstr "")
    let change_type ← pyGet changes "type" (Json.jstr "")
    let note := if truthy caption then "\nHinweis: " ++ pyStr caption else ""
    let cancelledVal ← pyGet changes "cancelled" Json.null
    let is_cancelled :=
      pyEqStr cancelledVal "classFree" || pyEqStr change_type "cancellation"
    let modifiedVal ← pyGet changes "modified" Json.null
    let is_substitution ←
      if pyEqStr modifiedVal "true" || pyEqStr change_type "substitution" then
        pure true
      else do
        let lowered ← pyLower caption
        pure (substrB "vertretung" lowered)
    pure (note, is_cancelled, is_substitution)
  else
    pure ("", false, false)

/-- The body of the `for lesson in lesson_times` loop (lines 51–131):
field extraction with fallbacks, change-notice interpretation, then one
`tryDate` per entry of the date list.  Exceptions raised outside the
per-date `try` (for example `caption.lower()` on a non-`str` caption at
line 76, or `", ".join` on a non-string room/teacher list) propagate
out of `generate_ics`. -/
def processLesson (now : String) (lesson : Json) : Except PyErr (List String) := do
  let subject ← subjectExpr lesson
  let start_time_str ← pyGet lesson "startTime" (Json.jstr "0000")
  let end_time_str ← pyGet lesson "endTime" (Json.jstr "0000")
  let rooms ← pyGet lesson "roomCodes" (Json.jarr [])
  let room ← roomExpr rooms
  let teachers ← pyGet lesson "teacherCodes" (Json.jarr [])
  let teacher ← pyJoin ", " teachers
  let changes ← pyGet lesson "changes" Json.null
  let flags ← interpretChanges changes
  let title_prefix :=
    if flags.2.1 then "ENTFÄLLT: "
    else if flags.2.2 then "VERTRETUNG: "
    else ""
  let final_title := title_prefix ++ pyStr subject
  let description := "Lehrer: " ++ teacher ++ flags.1
  let dates ← pyGet lesson "dates" (Json.jarr [])
  let dateList ← pyIter dates
  pure (dateList.flatMap (fun d =>
    (tryDate subject start_time_str end_time_str final_title description
      room now flags.2.1 d).getD []))

/-- Outcome of `generate_ics`: `failure` is `return False` with no output
file written; `success lines` is `return True` after writing exactly
`lines` (joined with newlines) to the output file. -/
inductive GenResult where
  | failure : GenResult
  | success : List String → GenResult
deriving DecidableEq

/-- The `for lesson in lesson_times` loop: process each lesson in order,
concatenating the emitted lines; the first uncaught exception aborts the
whole run (before anything is written). -/
def processAll (now : String) : List Json → Except PyErr (List String)
  | [] => .ok []
  | l :: rest => do
    let here ← processLesson now l
    let there ← processAll now rest
    pure (here ++ there)

/-- Model of `generate_ics(schedule_data)` (lines 30–139).  `now` is the formatted
`datetime.now(pytz.utc)` timestamp, passed explicitly because the
original reads the clock; every VEVENT of one run uses the same value
only if the clock does not tick between events, so the model's single
value corresponds to one clock reading — no claim depends on DTSTAMP
content.  A `.error` is an uncaught Python exception. -/
def generate_ics (schedule_data : Json) (now : String) :
    Except PyErr GenResult := do
  let failCheck ←
    if !truthy schedule_data then
      pure true
    else do
      let hasResult ← pyContains schedule_data "result"
      if !hasResult then
        pure true
      else do
        let result ← pySubscript schedule_data "result"
        let hasDS ← pyContains result "displaySchedule"
        pure (!hasDS)
  if failCheck then
    pure GenResult.failure
  else do
    let result ← pySubscript schedule_data "result"
    let display_schedule ← pySubscript result "displaySchedule"
    let lesson_times ← pyGet display_schedule "lessonTimes" (Json.jarr [])
    let lessons ← pyIter lesson_times
    let body ← processAll now lessons
    pure (GenResult.success (icsHeader ++ body ++ ["END:VCALENDAR"]))

/-! ## The typed data model

The spec's `LessonEntry`/`ChangeNotice` records, injected into `Json`.
Optional fields model present-vs-absent dict keys; the claims about
well-typed schedule data quantify over these records. -/

/-- A change notice as in the spec's data model: free-text caption plus
the cancellation/modification/type classifier fields the code inspects. -/
structure ChangeNotice where
  caption : Option String
  cancelled : Option String
  modified : Option String
  ctype : Option String
deriving DecidableEq

/-- One timetable slot as in the spec's data model. -/
structure LessonEntry where
  subjectCode : Option String
  courseTitle : Option String
  startTime : Option String
  endTime : Option String
  roomCodes : Option (List String)
  teacherCodes : Option (List String)
  dates : List String
  changes : Option ChangeNotice
deriving DecidableEq

/-- A key/value pair present only when the value is. -/
def optField (k : String) (v : Option Json) : List (String × Json) :=
  match v with
  | none => []
  | some j => [(k, j)]

/-- The JSON dict carrying a change notice (key `"type"` holds `ctype`). -/
def ChangeNotice.toJson (c : ChangeNotice) : Json :=
  .jobj (optField "caption" (c.caption.map .jstr) ++
         optField "cancelled" (c.cancelled.map .jstr) ++
         optField "modified" (c.modified.map .jstr) ++
         optField "type" (c.ctype.map .jstr))

/-- The JSON dict carrying a lesson entry. -/
def LessonEntry.toJson (e : LessonEntry) : Json :=
  .jobj (optField "subjectCode" (e.subjectCode.map .jstr) ++
         optField "courseTitle" (e.courseTitle.map .jstr) ++
         optField "startTime" (e.startTime.map .jstr) ++
         optField "endTime" (e.endTime.map .jstr) ++
         optField "roomCodes" (e.roomCodes.map (fun l => .jarr (l.map .jstr))) ++
         optField "teacherCodes" (e.teacherCodes.map (fun l => .jarr (l.map .jstr))) ++
         [("dates", .jarr (e.dates.map .jstr))] ++
         optField "changes" (e.changes.map ChangeNotice.toJson))

/-- A full schedule payload with the expected `result.displaySchedule`
structure around a list of lesson entries. -/
def scheduleJson (es : List LessonEntry) : Json :=
  .jobj [("result", .jobj [("displaySchedule",
    .jobj [("lessonTimes", .jarr (es.map LessonEntry.toJson))])])]

/-- Display subject of a typed entry: the `subjectCode`/`courseTitle`/
`"Unbekannt"` fallback chain of line 52. -/
def displaySubject (e : LessonEntry) : String :=
  match e.subjectCode with
  | some s => s
  | none =>
    match e.courseTitle with
    | some t => t
    | none => "Unbekannt"

/-- Start-time string of a typed entry (default `"0000"`, line 53). -/
def startTimeOf (e : LessonEntry) : String := e.startTime.getD "0000"

/-- End-time string of a typed entry (default `"0000"`, line 54). -/
def endTimeOf (e : LessonEntry) : String := e.endTime.getD "0000"

/-- First room of a typed entry, or the empty string (line 57). -/
def roomOf (e : LessonEntry) : String :=
  match e.roomCodes with
  | some (r :: _) => r
  | _ => ""

/-- Comma-joined teacher codes of a typed entry (line 60). -/
def teacherOf (e : LessonEntry) : String :=
  String.intercalate ", " (e.teacherCodes.getD [])

/-- An empty change-notice dict (all four fields absent) is falsy in
Python, so `if changes:` at line 68 treats it like a missing notice. -/
def noticeTruthy (c : ChangeNotice) : Bool :=
  c.caption.isSome || c.cancelled.isSome || c.modified.isSome || c.ctype.isSome

/-- The `note` accumulated at lines 71–72 for a (truthy) change notice. -/
def noteOf (c : ChangeNotice) : String :=
  if truthy ((c.caption.map Json.jstr).getD (Json.jstr "")) then
    "\nHinweis: " ++ pyStr ((c.caption.map Json.jstr).getD (Json.jstr ""))
  else ""

/-- Flag `is_cancelled` (line 74) for a (truthy) change notice. -/
def noticeCancelled (c : ChangeNotice) : Bool :=
  pyEqStr ((c.cancelled.map Json.jstr).getD Json.null) "classFree" ||
  pyEqStr ((c.ctype.map Json.jstr).getD (Json.jstr "")) "cancellation"

/-- Flag `is_substitution` (line 76) for a (truthy) change notice. -/
def noticeSubstitution (c : ChangeNotice) : Bool :=
  if pyEqStr ((c.modified.map Json.jstr).getD Json.null) "true" ||
     pyEqStr ((c.ctype.map Json.jstr).getD (Json.jstr "")) "substitution" then
    true
  else
    substrB "vertretung"
      (String.mk ((c.caption.getD "").toList.map Char.toLower))

/-- The `(note, is_cancelled, is_substitution)` triple of lines 63–77 for
a typed entry. -/
def flagsOf (e : LessonEntry) : String × Bool × Bool :=
  match e.changes with
  | some c =>
    if noticeTruthy c then (noteOf c, noticeCancelled c, noticeSubstitution c)
    else ("", false, false)
  | none => ("", false, false)

/-- Title `final_title` (lines 79–85) for a typed entry. -/
def titleOf (e : LessonEntry) : String :=
  (if (flagsOf e).2.1 then "ENTFÄLLT: "
   else if (flagsOf e).2.2 then "VERTRETUNG: "
   else "") ++ displaySubject e

/-- Text `description` (line 86) for a typed entry. -/
def descriptionOf (e : LessonEntry) : String :=
  "Lehrer: " ++ teacherOf e ++ (flagsOf e).1

/-- The VEVENT block (or skip) a typed entry produces for one date. -/
def eventLines (now : String) (e : LessonEntry) (d : String) :
    Option (List String) :=
  tryDate (Json.jstr (displaySubject e)) (Json.jstr (startTimeOf e))
    (Json.jstr (endTimeOf e)) (titleOf e) (descriptionOf e)
    (Json.jstr (roomOf e)) now (flagsOf e).2.1 (Json.jstr d)

/-- All lines a typed entry contributes to the output. -/
def lessonLines (now : String) (e : LessonEntry) : List String :=
  (e.dates.map Json.jstr).flatMap (fun dj =>
    (tryDate (Json.jstr (displaySubject e)) (Json.jstr (startTimeOf e))
      (Json.jstr (endTimeOf e)) (titleOf e) (descriptionOf e)
      (Json.jstr (roomOf e)) now (flagsOf e).2.1 dj).getD [])

/-! ## Plumbing lemmas -/

@[simp] theorem ok_bind {α β : Type} (a : α) (f : α → Except PyErr β) :
    (Except.ok a >>= f) = f a := rfl

@[simp] theorem error_bind {α β : Type} (e : PyErr) (f : α → Except PyErr β) :
    ((Except.error e : Except PyErr α) >>= f) = Except.error e := rfl

@[simp] theorem pure_except {α : Type} (a : α) :
    (pure a : Except PyErr α) = Except.ok a := rfl

@[simp] theorem ite_pure_except {α : Type} (c : Prop) [Decidable c] (a b : α) :
    (if c then (pure a : Except PyErr α) else pure b) = pure (if c then a else b) := by
  split <;> rfl

@[simp] theorem pyStr_jstr (s : String) : pyStr (.jstr s) = s := rfl

@[simp] theorem lookupKey_append (l1 l2 : List (String × Json)) (k : String) :
    lookupKey (l1 ++ l2) k =
      match lookupKey l1 k with
      | some v => some v
      | none => lookupKey l2 k := by
  induction l1 with
  | nil => simp [lookupKey]
  | cons kv rest ih =>
    obtain ⟨k', v⟩ := kv
    by_cases h : k' = k <;> simp [lookupKey, h, ih]

@[simp] theorem lookupKey_optField_same (k : String) (v : Option Json) :
    lookupKey (optField k v) k = v := by
  cases v <;> simp [optField, lookupKey]

@[simp] theorem lookupKey_optField_ne (k k' : String) (v : Option Json) (h : ¬k = k') :
    lookupKey (optField k v) k' = none := by
  cases v <;> simp [optField, lookupKey, h]

theorem strList_map_jstr (l : List String) :
    strList (l.map Json.jstr) = some l := by
  induction l with
  | nil => rfl
  | cons s rest ih => simp [strList, ih]

theorem pyJoin_jstrs (sep : String) (l : List String) :
    pyJoin sep (.jarr (l.map .jstr)) = .ok (String.intercalate sep l) := by
  simp [pyJoin, pyIter, strList_map_jstr]

/-! ## Evaluation of `processLesson` on typed entries -/

theorem subject_toJson (e : LessonEntry) (dflt : Json) :
    pyGet e.toJson "subjectCode" ((e.courseTitle.map Json.jstr).getD dflt) =
      .ok ((e.subjectCode.map Json.jstr).getD
        ((e.courseTitle.map Json.jstr).getD dflt)) := by
  obtain ⟨sc, ct, st, et, rc, tc, ds, ch⟩ := e
  cases sc <;> cases ct <;> simp [LessonEntry.toJson, pyGet, lookupKey]

theorem courseTitle_toJson (e : LessonEntry) (dflt : Json) :
    pyGet e.toJson "courseTitle" dflt = .ok ((e.courseTitle.map Json.jstr).getD dflt) := by
  obtain ⟨sc, ct, st, et, rc, tc, ds, ch⟩ := e
  cases ct <;> simp [LessonEntry.toJson, pyGet, lookupKey]

theorem startTime_toJson (e : LessonEntry) (dflt : Json) :
    pyGet e.toJson "startTime" dflt = .ok ((e.startTime.map Json.jstr).getD dflt) := by
  obtain ⟨sc, ct, st, et, rc, tc, ds, ch⟩ := e
  cases st <;> simp [LessonEntry.toJson, pyGet, lookupKey]

theorem endTime_toJson (e : LessonEntry) (dflt : Json) :
    pyGet e.toJson "endTime" dflt = .ok ((e.endTime.map Json.jstr).getD dflt) := by
  obtain ⟨sc, ct, st, et, rc, tc, ds, ch⟩ := e
  cases et <;> simp [LessonEntry.toJson, pyGet, lookupKey]

theorem roomCodes_toJson (e : LessonEntry) (dflt : Json) :
    pyGet e.toJson "roomCodes" dflt =
      .ok ((e.roomCodes.map (fun l => Json.jarr (l.map Json.jstr))).getD dflt) := by
  obtain ⟨sc, ct, st, et, rc, tc, ds, ch⟩ := e
  cases rc <;> simp [LessonEntry.toJson, pyGet, lookupKey]

theorem teacherCodes_toJson (e : LessonEntry) (dflt : Json) :
    pyGet e.toJson "teacherCodes" dflt =
      .ok ((e.teacherCodes.map (fun l => Json.jarr (l.map Json.jstr))).getD dflt) := by
  obtain ⟨sc, ct, st, et, rc, tc, ds, ch⟩ := e
  cases tc <;> simp [LessonEntry.toJson, pyGet, lookupKey]

theorem dates_toJson (e : LessonEntry) (dflt : Json) :
    pyGet e.toJson "dates" dflt = .ok (.jarr (e.dates.map .jstr)) := by
  obtain ⟨sc, ct, st, et, rc, tc, ds, ch⟩ := e
  simp [LessonEntry.toJson, pyGet, lookupKey]

theorem changes_toJson (e : LessonEntry) (dflt : Json) :
    pyGet e.toJson "changes" dflt =
      .ok ((e.changes.map ChangeNotice.toJson).getD dflt) := by
  obtain ⟨sc, ct, st, et, rc, tc, ds, ch⟩ := e
  simp [LessonEntry.toJson, pyGet, lookupKey]

theorem room_typed (e : LessonEntry) :
    roomExpr ((e.roomCodes.map (fun l => Json.jarr (l.map Json.jstr))).getD (Json.jarr [])) =
      Except.ok (Json.jstr (roomOf e)) := by
  obtain ⟨sc, ct, st, et, rc, tc, ds, ch⟩ := e
  rcases rc with _ | (_ | ⟨r, rs⟩) <;> simp [roomExpr, truthy, pyIndexZero, roomOf]

theorem teacher_typed (e : LessonEntry) :
    pyJoin ", " ((e.teacherCodes.map (fun l => Json.jarr (l.map Json.jstr))).getD (Json.jarr [])) =
      Except.ok (teacherOf e) := by
  obtain ⟨sc, ct, st, et, rc, tc, ds, ch⟩ := e
  cases tc with
  | none => exact pyJoin_jstrs ", " []
  | some l => simpa [teacherOf] using pyJoin_jstrs ", " l

theorem interpretChanges_typed (e : LessonEntry) :
    interpretChanges ((e.changes.map ChangeNotice.toJson).getD Json.null) =
      Except.ok (flagsOf e) := by
  obtain ⟨sc, ct, st, et, rc, tc, ds, ch⟩ := e
  cases ch with
  | none => rfl
  | some c =>
    obtain ⟨cap, cv, mv, ty⟩ := c
    cases cap <;> cases cv <;> cases mv <;> cases ty <;>
      simp [interpretChanges, ChangeNotice.toJson, flagsOf, noticeTruthy, noteOf,
            noticeCancelled, noticeSubstitution, truthy, pyGet, lookupKey, optField,
            pyLower, substrB] <;>
      (try (split <;> simp_all))

theorem subject_typed (e : LessonEntry) :
    (e.subjectCode.map Json.jstr).getD
        ((e.courseTitle.map Json.jstr).getD (Json.jstr "Unbekannt")) =
      Json.jstr (displaySubject e) := by
  obtain ⟨sc, ct, st, et, rc, tc, ds, ch⟩ := e
  cases sc <;> cases ct <;> simp [displaySubject]

theorem startTime_typed (e : LessonEntry) :
    (e.startTime.map Json.jstr).getD (Json.jstr "0000") = Json.jstr (startTimeOf e) := by
  obtain ⟨sc, ct, st, et, rc, tc, ds, ch⟩ := e
  cases st <;> simp [startTimeOf]

theorem endTime_typed (e : LessonEntry) :
    (e.endTime.map Json.jstr).getD (Json.jstr "0000") = Json.jstr (endTimeOf e) := by
  obtain ⟨sc, ct, st, et, rc, tc, ds, ch⟩ := e
  cases et <;> simp [endTimeOf]

theorem displaySubject_eq (e : LessonEntry) :
    displaySubject e = e.subjectCode.getD (e.courseTitle.getD "Unbekannt") := by
  obtain ⟨sc, ct, st, et, rc, tc, ds, ch⟩ := e
  cases sc <;> cases ct <;> simp [displaySubject]

/-- Evaluation of `processLesson` on a well-typed lesson entry: never raises, and
produces exactly the blocks described by `lessonLines`. -/
theorem processLesson_typed (now : String) (e : LessonEntry) :
    processLesson now e.toJson = Except.ok (lessonLines now e) := by
  rw [processLesson, subjectExpr, courseTitle_toJson, ok_bind, subject_toJson, ok_bind,
      startTime_toJson, ok_bind, endTime_toJson, ok_bind, roomCodes_toJson, ok_bind,
      room_typed, ok_bind, teacherCodes_toJson, ok_bind, teacher_typed, ok_bind,
      changes_toJson, ok_bind, interpretChanges_typed, ok_bind,
      dates_toJson, ok_bind]
  simp [pyIter, lessonLines, subject_typed, startTime_typed, endTime_typed,
        titleOf, descriptionOf, displaySubject_eq, startTimeOf, endTimeOf]

/-- Evaluation of `generate_ics` on a well-typed schedule: the structure check passes,
no exception is raised, and the output is the header, each entry's
blocks in order, and the footer. -/
theorem generate_ics_scheduleJson (es : List LessonEntry) (now : String) :
    generate_ics (scheduleJson es) now =
      Except.ok (GenResult.success
        (icsHeader ++ (es.map (lessonLines now)).flatten ++ ["END:VCALENDAR"])) := by
  have hmap : processAll now (es.map LessonEntry.toJson) =
      Except.ok ((es.map (lessonLines now)).flatten) := by
    induction es with
    | nil => rfl
    | cons e rest ih =>
      rw [List.map_cons, processAll, processLesson_typed, ok_bind, ih, ok_bind]
      rfl
  simp [generate_ics, scheduleJson, truthy, pyContains, pySubscript, lookupKey,
        pyGet, pyIter, hmap]

/-- Each entry's contribution, date by date: a failing date contributes
nothing, every other date contributes its block, in order. -/
theorem lessonLines_eq (now : String) (e : LessonEntry) :
    lessonLines now e = e.dates.flatMap (fun d => (eventLines now e d).getD []) := by
  simp [lessonLines, eventLines, List.flatMap_map]

/-! ## Structure of an emitted VEVENT block -/

/-- Dissection of a successful `tryDate`: the parses succeeded, the
subject was a string, and the block has the fixed shape. -/
theorem tryDate_some_shape (subject st et : Json) (title desc : String)
    (room : Json) (now : String) (canc : Bool) (d : Json) (xs : List String)
    (h : tryDate subject st et title desc room now canc d = some xs) :
    ∃ subj ps pe,
      subject = Json.jstr subj ∧
      strptimeYmdHM (pyStr d ++ pyStr st) = some ps ∧
      strptimeYmdHM (pyStr d ++ pyStr et) = some pe ∧
      (localizeOk ps.1 ps.2.1 ps.2.2.1 && localizeOk pe.1 pe.2.1 pe.2.2.1) = true ∧
      xs = ["BEGIN:VEVENT",
            "UID:davinci-" ++ removeSpaces subj ++ "-" ++ pyStr d ++ "-" ++
              pyStr st ++ "@sync",
            "DTSTAMP:" ++ now,
            "DTSTART:" ++ utcFormat ps.1 ps.2.1 ps.2.2.1 ps.2.2.2.1 ps.2.2.2.2,
            "DTEND:" ++ utcFormat pe.1 pe.2.1 pe.2.2.1 pe.2.2.2.1 pe.2.2.2.2,
            "SUMMARY:" ++ title,
            "LOCATION:" ++ pyStr room,
            "DESCRIPTION:" ++ escapeNl desc] ++
           (if canc then ["STATUS:CANCELLED"] else []) ++ ["END:VEVENT"] := by
  rw [tryDate] at h
  split at h
  case h_2 => exact absurd h (by simp)
  case h_1 ys ms ds hs mins ye me de he mine hA hB =>
    split at h
    case isFalse => exact absurd h (by simp)
    case isTrue hok =>
      split at h
      case h_2 hsub => exact absurd h (by simp)
      case h_1 subj =>
        exact ⟨subj, (ys, ms, ds, hs, mins), (ye, me, de, he, mine), rfl, hA, hB,
          hok, (Option.some.injEq _ _ ▸ h).symm⟩

/-- The UID line of an emitted block is at index 1 and is built only from
the space-stripped subject, the date string and the start-time string. -/
theorem tryDate_uid (subj : String) (st et : Json) (title desc : String)
    (room : Json) (now : String) (canc : Bool) (d : Json) (xs : List String)
    (h : tryDate (Json.jstr subj) st et title desc room now canc d = some xs) :
    xs[1]? = some ("UID:davinci-" ++ removeSpaces subj ++ "-" ++ pyStr d ++
      "-" ++ pyStr st ++ "@sync") := by
  obtain ⟨subj2, ps, pe, hs, _, _, _, hxs⟩ := tryDate_some_shape _ _ _ _ _ _ _ _ _ _ h
  cases hs
  subst hxs
  rfl

/-- The SUMMARY line of an emitted block is at index 5 and carries exactly
the precomputed title. -/
theorem tryDate_summary (subject st et : Json) (title desc : String)
    (room : Json) (now : String) (canc : Bool) (d : Json) (xs : List String)
    (h : tryDate subject st et title desc room now canc d = some xs) :
    xs[5]? = some ("SUMMARY:" ++ title) := by
  obtain ⟨subj, ps, pe, _, _, _, _, hxs⟩ := tryDate_some_shape _ _ _ _ _ _ _ _ _ _ h
  subst hxs
  rfl

/-- A block emitted with the cancellation flag contains the
`STATUS:CANCELLED` line. -/
theorem tryDate_status (subject st et : Json) (title desc : String)
    (room : Json) (now : String) (d : Json) (xs : List String)
    (h : tryDate subject st et title desc room now true d = some xs) :
    "STATUS:CANCELLED" ∈ xs := by
  obtain ⟨subj, ps, pe, _, _, _, _, hxs⟩ := tryDate_some_shape _ _ _ _ _ _ _ _ _ _ h
  subst hxs
  simp

/-- Every emitted block contains the `BEGIN:VEVENT` marker exactly once. -/
theorem tryDate_count (subject st et : Json) (title desc : String)
    (room : Json) (now : String) (canc : Bool) (d : Json) (xs : List String)
    (h : tryDate subject st et title desc room now canc d = some xs) :
    xs.count "BEGIN:VEVENT" = 1 := by
  obtain ⟨subj, ps, pe, _, _, _, _, hxs⟩ := tryDate_some_shape _ _ _ _ _ _ _ _ _ _ h
  subst hxs
  have huid : ("UID:davinci-" ++ removeSpaces subj ++ "-" ++ pyStr d ++ "-" ++
      pyStr st ++ "@sync") ≠ "BEGIN:VEVENT" := by
    intro he
    have h2 := congrArg String.data he
    simp [String.data_append] at h2
  have hstamp : ("DTSTAMP:" ++ now) ≠ "BEGIN:VEVENT" := by
    intro he
    have h2 := congrArg String.data he
    simp [String.data_append] at h2
  have hstart : ("DTSTART:" ++ utcFormat ps.1 ps.2.1 ps.2.2.1 ps.2.2.2.1 ps.2.2.2.2) ≠
      "BEGIN:VEVENT" := by
    intro he
    have h2 := congrArg String.data he
    simp [String.data_append] at h2
  have hend : ("DTEND:" ++ utcFormat pe.1 pe.2.1 pe.2.2.1 pe.2.2.2.1 pe.2.2.2.2) ≠
      "BEGIN:VEVENT" := by
    intro he
    have h2 := congrArg String.data he
    simp [String.data_append] at h2
  have hsum : ("SUMMARY:" ++ title) ≠ "BEGIN:VEVENT" := by
    intro he
    have h2 := congrArg String.data he
    simp [String.data_append] at h2
  have hloc : ("LOCATION:" ++ pyStr room) ≠ "BEGIN:VEVENT" := by
    intro he
    have h2 := congrArg String.data he
    simp [String.data_append] at h2
  have hdesc : ("DESCRIPTION:" ++ escapeNl desc) ≠ "BEGIN:VEVENT" := by
    intro he
    have h2 := congrArg String.data he
    simp [String.data_append] at h2
  cases canc <;>
    simp [List.count_cons, List.count_append, huid, hstamp, hstart, hend, hsum,
      hloc, hdesc, List.count_nil]

/-- Forward evaluation of `tryDate` when both parses and the localization
succeed. -/
theorem tryDate_eval (subj : String) (st et : Json) (title desc : String)
    (room : Json) (now : String) (canc : Bool) (d : Json)
    (ps pe : Nat × Nat × Nat × Nat × Nat)
    (hA : strptimeYmdHM (pyStr d ++ pyStr st) = some ps)
    (hB : strptimeYmdHM (pyStr d ++ pyStr et) = some pe)
    (hok : (localizeOk ps.1 ps.2.1 ps.2.2.1 && localizeOk pe.1 pe.2.1 pe.2.2.1) = true) :
    tryDate (Json.jstr subj) st et title desc room now canc d =
      some (["BEGIN:VEVENT",
             "UID:davinci-" ++ removeSpaces subj ++ "-" ++ pyStr d ++ "-" ++
               pyStr st ++ "@sync",
             "DTSTAMP:" ++ now,
             "DTSTART:" ++ utcFormat ps.1 ps.2.1 ps.2.2.1 ps.2.2.2.1 ps.2.2.2.2,
             "DTEND:" ++ utcFormat pe.1 pe.2.1 pe.2.2.1 pe.2.2.2.1 pe.2.2.2.2,
             "SUMMARY:" ++ title,
             "LOCATION:" ++ pyStr room,
             "DESCRIPTION:" ++ escapeNl desc] ++
            (if canc then ["STATUS:CANCELLED"] else []) ++ ["END:VEVENT"]) := by
  obtain ⟨ys, ms, ds, hs, mins⟩ := ps
  obtain ⟨ye, me, de, he, mine⟩ := pe
  simp only [tryDate, hA, hB]
  rw [if_pos hok]

/-! ## Claims -/

/-- Claim C2. For every input whose data is absent, or lacks the `"result"`
key, or whose `"result"` is an object lacking the `"displaySchedule"`
key, `generate_ics` returns the failure indicator (`False` at line 33,
modelled by `GenResult.failure`, which carries no file content): the
check at line 31 short-circuits before any event is emitted and no
output file is written. -/
theorem c2_missing_structure_fails (data : Json) (now : String)
    (h : data = Json.null ∨
         (∃ kvs, data = Json.jobj kvs ∧ lookupKey kvs "result" = none) ∨
         (∃ kvs rkvs, data = Json.jobj kvs ∧
            lookupKey kvs "result" = some (Json.jobj rkvs) ∧
            lookupKey rkvs "displaySchedule" = none)) :
    generate_ics data now = Except.ok GenResult.failure := by
  rcases h with rfl | ⟨kvs, rfl, hl⟩ | ⟨kvs, rkvs, rfl, hl, hl2⟩
  · rfl
  · cases kvs with
    | nil => rfl
    | cons kv rest => simp [generate_ics, truthy, pyContains, hl]
  · cases kvs with
    | nil => cases hl
    | cons kv rest =>
      simp [generate_ics, truthy, pyContains, pySubscript, hl, hl2]

theorem c2_missing_structure_fails_witness :
    generate_ics (Json.jobj [("x", Json.jnum 1)]) "T" = Except.ok GenResult.failure :=
  c2_missing_structure_fails _ "T" (Or.inr (Or.inl ⟨_, rfl, rfl⟩))

/-- Claim C9. The display subject is the `subjectCode` when present, else
the `courseTitle`, else the fixed placeholder `"Unbekannt"` (line 52). -/
theorem c9_display_subject (e : LessonEntry) :
    subjectExpr e.toJson =
      Except.ok (Json.jstr
        (match e.subjectCode, e.courseTitle with
         | some s, _ => s
         | none, some t => t
         | none, none => "Unbekannt")) ∧
    displaySubject e =
      (match e.subjectCode, e.courseTitle with
       | some s, _ => s
       | none, some t => t
       | none, none => "Unbekannt") := by
  obtain ⟨sc, ct, st, et, rc, tc, ds, ch⟩ := e
  constructor
  · rw [subjectExpr, courseTitle_toJson, ok_bind, subject_toJson]
    cases sc <;> cases ct <;> rfl
  · cases sc <;> cases ct <;> rfl

/-- Claim C6. On a well-typed schedule the run always succeeds, and the
output is exactly the concatenation, entry by entry and date by date, of
the per-date blocks: a date whose processing fails (`eventLines … = none`)
contributes nothing, while every other date of the same lesson and every
subsequent lesson still contributes its block — a per-date failure never
aborts the run. -/
theorem c6_per_date_isolation (es : List LessonEntry) (now : String) :
    generate_ics (scheduleJson es) now =
      Except.ok (GenResult.success
        (icsHeader ++
         es.flatMap (fun e =>
           e.dates.flatMap (fun d => (eventLines now e d).getD [])) ++
         ["END:VCALENDAR"])) := by
  rw [generate_ics_scheduleJson]
  have : (es.map (lessonLines now)).flatten =
      es.flatMap (fun e => e.dates.flatMap (fun d => (eventLines now e d).getD [])) := by
    induction es with
    | nil => rfl
    | cons e rest ih => simp [ih, lessonLines_eq]
  rw [this]

/-- The ill-typed but structurally complete payload used against C7: the
`result.displaySchedule.lessonTimes` path is present, but the single
lesson's change notice carries the number `1` as caption. -/
def c7Payload : Json :=
  Json.jobj [("result", Json.jobj [("displaySchedule", Json.jobj [("lessonTimes",
    Json.jarr [Json.jobj [("changes", Json.jobj [("caption", Json.jnum 1)])]])])])]

/-- Claim C7, counterexample. A payload that passes the top-level structure
check but whose change-notice caption is a number makes `generate_ics`
raise an uncaught `AttributeError` (line 76 evaluates
`caption.lower()` outside the `try` block), instead of degrading
gracefully. -/
theorem c7_counterexample :
    (do
      let r ← pySubscript c7Payload "result"
      pyContains r "displaySchedule") = Except.ok true ∧
    generate_ics c7Payload "T" = Except.error PyErr.attributeError :=
  ⟨rfl, rfl⟩

/-- Claim C7, amended. For every input that passes the top-level structure
check *and whose lesson list is well-typed* (string and string-list
fields as in the data model), `generate_ics` never raises: missing
fields and malformed date strings degrade gracefully. -/
theorem c7_no_exception_when_well_typed (es : List LessonEntry) (now : String) :
    ∃ lines, generate_ics (scheduleJson es) now =
      Except.ok (GenResult.success lines) :=
  ⟨_, generate_ics_scheduleJson es now⟩

/-- Whether a date of an entry yields an event; defined with a fixed clock
value, which is justified by `eventLines_isSome`. -/
def emitsDate (e : LessonEntry) (d : String) : Bool :=
  (eventLines "" e d).isSome

theorem eventLines_def (now : String) (e : LessonEntry) (d : String) :
    eventLines now e d =
      tryDate (Json.jstr (displaySubject e)) (Json.jstr (startTimeOf e))
        (Json.jstr (endTimeOf e)) (titleOf e) (descriptionOf e)
        (Json.jstr (roomOf e)) now (flagsOf e).2.1 (Json.jstr d) := rfl

/-- Success of a date does not depend on the clock: only the DTSTAMP
content does. -/
theorem eventLines_isSome (now : String) (e : LessonEntry) (d : String) :
    (eventLines now e d).isSome = emitsDate e d := by
  rw [emitsDate]
  cases h1 : eventLines "" e d with
  | some xs =>
    rw [eventLines] at h1
    obtain ⟨subj, ps, pe, hsub, hA, hB, hok, _⟩ :=
      tryDate_some_shape _ _ _ _ _ _ _ _ _ _ h1
    have h2 := tryDate_eval (displaySubject e) (Json.jstr (startTimeOf e))
      (Json.jstr (endTimeOf e)) (titleOf e) (descriptionOf e)
      (Json.jstr (roomOf e)) now (flagsOf e).2.1 (Json.jstr d) ps pe hA hB hok
    rw [eventLines, h2]
    rfl
  | none =>
    cases h2 : eventLines now e d with
    | none => rfl
    | some xs =>
      rw [eventLines] at h2
      obtain ⟨subj, ps, pe, hsub, hA, hB, hok, _⟩ :=
        tryDate_some_shape _ _ _ _ _ _ _ _ _ _ h2
      have h3 := tryDate_eval (displaySubject e) (Json.jstr (startTimeOf e))
        (Json.jstr (endTimeOf e)) (titleOf e) (descriptionOf e)
        (Json.jstr (roomOf e)) "" (flagsOf e).2.1 (Json.jstr d) ps pe hA hB hok
      rw [eventLines, h3] at h1
      cases h1

/-- Claim C3. A well-typed lesson entry with `N` dates contributes exactly
`N` VEVENT blocks (counted by their `BEGIN:VEVENT` marker), minus one
for each date whose combined date/time processing fails. -/
theorem c3_event_count (e : LessonEntry) (now : String) :
    processLesson now e.toJson = Except.ok (lessonLines now e) ∧
    (lessonLines now e).count "BEGIN:VEVENT" =
      e.dates.length - (e.dates.filter (fun d => !emitsDate e d)).length := by
  refine ⟨processLesson_typed now e, ?_⟩
  rw [lessonLines_eq]
  have hcount : ∀ ds : List String,
      ((ds.flatMap (fun d => (eventLines now e d).getD [])).count "BEGIN:VEVENT") =
        (ds.filter (fun d => emitsDate e d)).length := by
    intro ds
    induction ds with
    | nil => rfl
    | cons d rest ih =>
      rw [List.flatMap_cons, List.count_append, ih]
      cases h : eventLines now e d with
      | none =>
        have hf : emitsDate e d = false := by
          rw [← eventLines_isSome now, h]
          rfl
        simp [hf]
      | some xs =>
        have ht : emitsDate e d = true := by
          rw [← eventLines_isSome now, h]
          rfl
        have hc := tryDate_count _ _ _ _ _ _ _ _ _ _ ((eventLines_def now e d) ▸ h)
        simp [List.filter_cons, ht, hc, Nat.add_comm]
  rw [hcount]
  have hsplit : ∀ (l : List String) (p : String → Bool),
      (l.filter p).length + (l.filter (fun x => !p x)).length = l.length := by
    intro l p
    induction l with
    | nil => rfl
    | cons a t ih => cases hpa : p a <;> simp [List.filter_cons, hpa] <;> omega
  have := hsplit e.dates (fun d => emitsDate e d)
  omega

/-- Claim C4. If the change notice carries the cancellation sentinel
(`cancelled == "classFree"` or `type == "cancellation"`, line 74), every
emitted event's SUMMARY begins with the cancellation prefix
`ENTFÄLLT: ` and the block contains `STATUS:CANCELLED`; this holds
whatever the substitution evidence says, since line 80 checks the
cancelled flag first. -/
theorem c4_cancellation (e : LessonEntry) (c : ChangeNotice) (now d : String)
    (xs : List String)
    (hc : e.changes = some c)
    (hs : c.cancelled = some "classFree" ∨ c.ctype = some "cancellation")
    (hev : eventLines now e d = some xs) :
    xs[5]? = some ("SUMMARY:ENTFÄLLT: " ++ displaySubject e) ∧
    "STATUS:CANCELLED" ∈ xs := by
  have ht : noticeTruthy c = true := by
    obtain ⟨cap, cv, mv, ty⟩ := c
    rcases hs with h | h <;> (simp only at h; subst h; simp [noticeTruthy])
  have hcanc : noticeCancelled c = true := by
    obtain ⟨cap, cv, mv, ty⟩ := c
    rcases hs with h | h <;> (simp only at h; subst h; simp [noticeCancelled, pyEqStr])
  have hflag : (flagsOf e).2.1 = true := by
    simp [flagsOf, hc, ht, hcanc]
  have htitle : titleOf e = "ENTFÄLLT: " ++ displaySubject e := by
    rw [titleOf, hflag]
    simp
  have hev2 := (eventLines_def now e d) ▸ hev
  constructor
  · have hsum := tryDate_summary _ _ _ _ _ _ _ _ _ _ hev2
    rw [htitle] at hsum
    exact hsum
  · rw [hflag] at hev2
    exact tryDate_status _ _ _ _ _ _ _ _ _ hev2

/-- Claim C5. If the change notice signals substitution
(`modified == "true"`, or `type == "substitution"`, or the caption
contains `vertretung` case-insensitively, line 76) and no cancellation
sentinel is set, every emitted event's SUMMARY begins with the
substitution prefix `VERTRETUNG: `. -/
theorem c5_substitution (e : LessonEntry) (c : ChangeNotice) (now d : String)
    (xs : List String)
    (hc : e.changes = some c)
    (hnc : ¬(c.cancelled = some "classFree" ∨ c.ctype = some "cancellation"))
    (hs : c.modified = some "true" ∨ c.ctype = some "substitution" ∨
      substrB "vertretung"
        (String.mk ((c.caption.getD "").toList.map Char.toLower)) = true)
    (hev : eventLines now e d = some xs) :
    xs[5]? = some ("SUMMARY:VERTRETUNG: " ++ displaySubject e) := by
  push_neg at hnc
  obtain ⟨hnc1, hnc2⟩ := hnc
  have ht : noticeTruthy c = true := by
    obtain ⟨cap, cv, mv, ty⟩ := c
    rcases hs with h | h | h
    · simp only at h; subst h; simp [noticeTruthy]
    · simp only at h; subst h; simp [noticeTruthy]
    · simp only at h
      cases cap with
      | none => simp [substrB, isInfixB, isPrefixB] at h
      | some s => simp [noticeTruthy]
  have hcanc : noticeCancelled c = false := by
    obtain ⟨cap, cv, mv, ty⟩ := c
    simp only at hnc1 hnc2
    cases cv <;> cases ty <;> simp_all [noticeCancelled, pyEqStr]
  have hsubst : noticeSubstitution c = true := by
    rw [noticeSubstitution]
    split
    · rfl
    case isFalse hcond =>
      rcases hs with h | h | h
      · obtain ⟨cap, cv, mv, ty⟩ := c
        simp only at h
        subst h
        simp [pyEqStr] at hcond
      · obtain ⟨cap, cv, mv, ty⟩ := c
        simp only at h
        subst h
        simp [pyEqStr] at hcond
      · exact h
  have hflag1 : (flagsOf e).2.1 = false := by
    simp [flagsOf, hc, ht, hcanc]
  have hflag2 : (flagsOf e).2.2 = true := by
    simp [flagsOf, hc, ht, hsubst]
  have htitle : titleOf e = "VERTRETUNG: " ++ displaySubject e := by
    rw [titleOf, hflag1, hflag2]
    simp
  have hev2 := (eventLines_def now e d) ▸ hev
  have hsum := tryDate_summary _ _ _ _ _ _ _ _ _ _ hev2
  rw [htitle] at hsum
  exact hsum

/-- C4 witness data: cancellation sentinel set *and* substitution
classifier set, demonstrating the precedence. -/
def c4Entry : LessonEntry :=
  ⟨some "MAT", none, some "0800", some "0930", none, none, ["20250115"],
   some ⟨none, some "classFree", none, some "substitution"⟩⟩

def c4Block : List String :=
  ["BEGIN:VEVENT", "UID:davinci-MAT-20250115-0800@sync", "DTSTAMP:T",
   "DTSTART:20250115T070000Z", "DTEND:20250115T083000Z",
   "SUMMARY:ENTFÄLLT: MAT", "LOCATION:", "DESCRIPTION:Lehrer: ",
   "STATUS:CANCELLED", "END:VEVENT"]

theorem c4_cancellation_witness :
    eventLines "T" c4Entry "20250115" = some c4Block ∧
    c4Block[5]? = some ("SUMMARY:ENTFÄLLT: " ++ displaySubject c4Entry) ∧
    "STATUS:CANCELLED" ∈ c4Block :=
  ⟨rfl, c4_cancellation c4Entry ⟨none, some "classFree", none, some "substitution"⟩
    "T" "20250115" c4Block rfl (Or.inl rfl) rfl⟩

def c5Entry : LessonEntry :=
  ⟨some "MAT", none, some "0800", some "0930", none, none, ["20250115"],
   some ⟨some "Vertretung Hr. X", none, none, none⟩⟩

def c5Block : List String :=
  ["BEGIN:VEVENT", "UID:davinci-MAT-20250115-0800@sync", "DTSTAMP:T",
   "DTSTART:20250115T070000Z", "DTEND:20250115T083000Z",
   "SUMMARY:VERTRETUNG: MAT", "LOCATION:",
   "DESCRIPTION:Lehrer: \\nHinweis: Vertretung Hr. X", "END:VEVENT"]

theorem c5_substitution_witness :
    eventLines "T" c5Entry "20250115" = some c5Block ∧
    c5Block[5]? = some ("SUMMARY:VERTRETUNG: " ++ displaySubject c5Entry) :=
  ⟨rfl, c5_substitution c5Entry ⟨some "Vertretung Hr. X", none, none, none⟩
    "T" "20250115" c5Block rfl (by simp) (Or.inr (Or.inr rfl)) rfl⟩

/-- Success of `tryDate` and the emitted UID/DTSTAMP/DTSTART/DTEND/
LOCATION lines do not depend on the title, the description or the
cancellation flag. -/
theorem tryDate_isSome_congr (subject st et : Json) (t1 d1 t2 d2 : String)
    (room : Json) (n1 n2 : String) (c1 c2 : Bool) (dd : Json) :
    (tryDate subject st et t1 d1 room n1 c1 dd).isSome =
      (tryDate subject st et t2 d2 room n2 c2 dd).isSome := by
  rw [tryDate, tryDate]
  cases hA : strptimeYmdHM (pyStr dd ++ pyStr st) with
  | none => rfl
  | some p =>
    cases hB : strptimeYmdHM (pyStr dd ++ pyStr et) with
    | none =>
      obtain ⟨ys, ms, ds2, hs, mins⟩ := p
      rfl
    | some q =>
      obtain ⟨ys, ms, ds2, hs, mins⟩ := p
      obtain ⟨ye, me, de, he, mine⟩ := q
      dsimp only
      by_cases hok : (localizeOk ys ms ds2 && localizeOk ye me de) = true
      · rw [if_pos hok, if_pos hok]
        cases subject <;> rfl
      · rw [if_neg hok, if_neg hok]

/-- Replacing an entry's change notice by nothing. -/
def clearChanges (e : LessonEntry) : LessonEntry :=
  ⟨e.subjectCode, e.courseTitle, e.startTime, e.endTime, e.roomCodes,
   e.teacherCodes, e.dates, none⟩

/-- Claim C10. The change notice influences only the SUMMARY prefix, the
DESCRIPTION note line and the optional STATUS line: whether a date is
emitted, and the UID, DTSTAMP, DTSTART, DTEND and LOCATION lines, are
identical with and without the notice — so a cancelled or substituted
occurrence carries the same UID and times as the original event. -/
theorem c10_frame_effect (e : LessonEntry) (c : ChangeNotice) (now d : String)
    (_hc : e.changes = some c) :
    (eventLines now e d).isSome = (eventLines now (clearChanges e) d).isSome ∧
    ∀ xs ys, eventLines now e d = some xs →
      eventLines now (clearChanges e) d = some ys →
      xs[1]? = ys[1]? ∧ xs[2]? = ys[2]? ∧ xs[3]? = ys[3]? ∧ xs[4]? = ys[4]? ∧
      xs[6]? = ys[6]? ∧
      xs[5]? = some ("SUMMARY:" ++ titleOf e) ∧
      ys[5]? = some ("SUMMARY:" ++ displaySubject e) := by
  have hds : displaySubject (clearChanges e) = displaySubject e := rfl
  have hst : startTimeOf (clearChanges e) = startTimeOf e := rfl
  have het : endTimeOf (clearChanges e) = endTimeOf e := rfl
  have hrm : roomOf (clearChanges e) = roomOf e := rfl
  have htc : titleOf (clearChanges e) = displaySubject e := rfl
  constructor
  · rw [eventLines_def now e d, eventLines_def now (clearChanges e) d,
        hds, hst, het, hrm]
    exact tryDate_isSome_congr _ _ _ _ _ _ _ _ _ _ _ _ _
  · intro xs ys h1 h2
    rw [eventLines_def] at h1 h2
    rw [hds, hst, het, hrm] at h2
    obtain ⟨subj1, ps1, pe1, hsub1, hA1, hB1, hok1, hxs⟩ :=
      tryDate_some_shape _ _ _ _ _ _ _ _ _ _ h1
    obtain ⟨subj2, ps2, pe2, hsub2, hA2, hB2, hok2, hys⟩ :=
      tryDate_some_shape _ _ _ _ _ _ _ _ _ _ h2
    cases hsub1
    cases hsub2
    rw [hA1] at hA2
    rw [hB1] at hB2
    cases hA2
    cases hB2
    subst hxs
    subst hys
    have hfl : (flagsOf (clearChanges e)).2.1 = false := rfl
    rw [hfl]
    cases hcanc : (flagsOf e).2.1 <;> simp [htc]

def c10Entry : LessonEntry :=
  ⟨some "MAT", none, some "0800", some "0930", some ["R1"], some ["AB"],
   ["20250115"], some ⟨some "Hinweis", some "classFree", none, none⟩⟩

def c10Block : List String :=
  ["BEGIN:VEVENT", "UID:davinci-MAT-20250115-0800@sync", "DTSTAMP:T",
   "DTSTART:20250115T070000Z", "DTEND:20250115T083000Z",
   "SUMMARY:ENTFÄLLT: MAT", "LOCATION:R1",
   "DESCRIPTION:Lehrer: AB\\nHinweis: Hinweis", "STATUS:CANCELLED",
   "END:VEVENT"]

def c10BlockClear : List String :=
  ["BEGIN:VEVENT", "UID:davinci-MAT-20250115-0800@sync", "DTSTAMP:T",
   "DTSTART:20250115T070000Z", "DTEND:20250115T083000Z", "SUMMARY:MAT",
   "LOCATION:R1", "DESCRIPTION:Lehrer: AB", "END:VEVENT"]

theorem c10_frame_effect_witness :
    eventLines "T" c10Entry "20250115" = some c10Block ∧
    eventLines "T" (clearChanges c10Entry) "20250115" = some c10BlockClear ∧
    c10Block[1]? = c10BlockClear[1]? ∧ c10Block[2]? = c10BlockClear[2]? ∧
    c10Block[3]? = c10BlockClear[3]? ∧ c10Block[4]? = c10BlockClear[4]? ∧
    c10Block[6]? = c10BlockClear[6]? ∧
    c10Block[5]? = some ("SUMMARY:" ++ titleOf c10Entry) ∧
    c10BlockClear[5]? = some ("SUMMARY:" ++ displaySubject c10Entry) :=
  ⟨rfl, rfl,
    (c10_frame_effect c10Entry ⟨some "Hinweis", some "classFree", none, none⟩
      "T" "20250115" rfl).2 c10Block c10BlockClear rfl rfl⟩

/-- Follows the spec's words, for comparison with the code: the subject
"with whitespace stripped", i.e. every whitespace character removed (the
code at line 108 removes only the space character). -/
def stripWhitespaceSpec (s : String) : String :=
  String.mk (s.toList.filter (fun c =>
    !(c = ' ' || c = '\t' || c = '\n' || c = '\r')))

def c1TabEntry (subj : String) : LessonEntry :=
  ⟨some subj, none, some "0800", some "0930", none, none, ["20250115"], none⟩

/-- Claim C1, counterexample. Two lessons whose subjects agree after
*whitespace* stripping (`"a b"` vs `"a\tb"`) but produce different UIDs:
line 108 removes only spaces, so the tab survives into the UID.  The
whole-run outputs differ exactly in the UID (and SUMMARY) lines. -/
theorem c1_counterexample :
    stripWhitespaceSpec "a b" = stripWhitespaceSpec "a\tb" ∧
    (∃ xs, generate_ics (scheduleJson [c1TabEntry "a b"]) "T" =
        Except.ok (GenResult.success xs) ∧
      xs[8]? = some "UID:davinci-ab-20250115-0800@sync") ∧
    (∃ ys, generate_ics (scheduleJson [c1TabEntry "a\tb"]) "T" =
        Except.ok (GenResult.success ys) ∧
      ys[8]? = some "UID:davinci-a\tb-20250115-0800@sync") ∧
    some ("UID:davinci-ab-20250115-0800@sync" : String) ≠
      some ("UID:davinci-a\tb-20250115-0800@sync" : String) := by
  refine ⟨rfl, ⟨_, generate_ics_scheduleJson _ "T", rfl⟩,
    ⟨_, generate_ics_scheduleJson _ "T", rfl⟩, by decide⟩

/-- Claim C1, amended. The UID is a pure, deterministic function of the
display subject with *spaces* removed, the date string and the
start-time string (plus the fixed `davinci-`/`@sync` namespace):
two lessons agreeing on that triple emit identical UIDs, across runs
(different clock values) and independent of every other field. -/
theorem c1_uid_function (e1 e2 : LessonEntry) (d now1 now2 : String)
    (xs ys : List String)
    (hsubj : removeSpaces (displaySubject e1) = removeSpaces (displaySubject e2))
    (hst : startTimeOf e1 = startTimeOf e2)
    (h1 : eventLines now1 e1 d = some xs)
    (h2 : eventLines now2 e2 d = some ys) :
    xs[1]? = some ("UID:davinci-" ++ removeSpaces (displaySubject e1) ++ "-" ++
      d ++ "-" ++ startTimeOf e1 ++ "@sync") ∧
    xs[1]? = ys[1]? := by
  rw [eventLines_def] at h1 h2
  have u1 := tryDate_uid _ _ _ _ _ _ _ _ _ _ h1
  have u2 := tryDate_uid _ _ _ _ _ _ _ _ _ _ h2
  simp only [pyStr_jstr] at u1 u2
  refine ⟨u1, ?_⟩
  rw [u1, u2, hsubj, hst]

def c1EntryA : LessonEntry :=
  ⟨some "M A T", none, some "0800", some "0930", some ["R1"], some ["AB"],
   ["20250115"], none⟩

def c1EntryB : LessonEntry :=
  ⟨some "MAT", some "Mathe", some "0800", some "1000", none, none,
   ["20250115"], some ⟨some "Raumtausch", none, none, none⟩⟩

def c1BlockA : List String :=
  ["BEGIN:VEVENT", "UID:davinci-MAT-20250115-0800@sync", "DTSTAMP:T1",
   "DTSTART:20250115T070000Z", "DTEND:20250115T083000Z", "SUMMARY:M A T",
   "LOCATION:R1", "DESCRIPTION:Lehrer: AB", "END:VEVENT"]

def c1BlockB : List String :=
  ["BEGIN:VEVENT", "UID:davinci-MAT-20250115-0800@sync", "DTSTAMP:T2",
   "DTSTART:20250115T070000Z", "DTEND:20250115T090000Z", "SUMMARY:MAT",
   "LOCATION:", "DESCRIPTION:Lehrer: \\nHinweis: Raumtausch", "END:VEVENT"]

theorem c1_uid_function_witness :
    eventLines "T1" c1EntryA "20250115" = some c1BlockA ∧
    eventLines "T2" c1EntryB "20250115" = some c1BlockB ∧
    c1BlockA[1]? = some "UID:davinci-MAT-20250115-0800@sync" ∧
    c1BlockA[1]? = c1BlockB[1]? :=
  ⟨rfl, rfl,
    (c1_uid_function c1EntryA c1EntryB "20250115" "T1" "T2" c1BlockA c1BlockB
      rfl rfl rfl rfl).1,
    (c1_uid_function c1EntryA c1EntryB "20250115" "T1" "T2" c1BlockA c1BlockB
      rfl rfl rfl rfl).2⟩

def c8Entry : LessonEntry :=
  ⟨some "MAT", none, some "0800", some "0930", none, none,
   ["20250328", "20250331", "20251024", "20251027"], none⟩

/-- Claim C8. The combined naive timestamp is interpreted as Europe/Berlin
wall-clock time and converted to UTC with the offset valid on that date:
(i) the conversion subtracts exactly the DST-dependent offset;
(ii) across the spring 2025 transition (March 30), the same wall-clock
time three days apart maps to UTC instants `3·1440 − 60` minutes apart,
and across the fall transition (October 26) `3·1440 + 60` minutes apart
— one hour of time-of-day difference each;
(iii) through the full pipeline, a lesson at wall-clock 08:00 yields
DTSTART 07:00Z before and 06:00Z after the spring transition, and
06:00Z before and 07:00Z after the fall transition. -/
theorem c8_timezone (y m d hh mi : Nat) (h1 : hh < 24) (h2 : mi < 60) :
    utcMinutes y m d hh mi =
      minutesOf y m d hh mi - (if inBerlinDst y m d hh mi then 120 else 60) ∧
    utcMinutes 2025 3 31 hh mi = utcMinutes 2025 3 28 hh mi + (3 * 1440 - 60) ∧
    utcMinutes 2025 10 27 hh mi = utcMinutes 2025 10 24 hh mi + (3 * 1440 + 60) ∧
    ((eventLines "T" c8Entry "20250328").getD [])[3]? =
      some "DTSTART:20250328T070000Z" ∧
    ((eventLines "T" c8Entry "20250331").getD [])[3]? =
      some "DTSTART:20250331T060000Z" ∧
    ((eventLines "T" c8Entry "20251024").getD [])[3]? =
      some "DTSTART:20251024T060000Z" ∧
    ((eventLines "T" c8Entry "20251027").getD [])[3]? =
      some "DTSTART:20251027T070000Z" := by
  have e1 : lastSunday 2025 3 = 30 := rfl
  have e2 : lastSunday 2025 10 = 26 := rfl
  have e3 : daysFromCivil 2025 3 30 = 739645 := rfl
  have e4 : daysFromCivil 2025 3 31 = 739646 := rfl
  have e5 : daysFromCivil 2025 10 26 = 739855 := rfl
  have e6 : daysFromCivil 2025 3 28 = 739643 := rfl
  have e7 : daysFromCivil 2025 10 27 = 739856 := rfl
  have e8 : daysFromCivil 2025 10 24 = 739853 := rfl
  have hin : inBerlinDst 2025 3 31 hh mi = true := by
    simp only [inBerlinDst, e1, e2, minutesOf, Bool.and_eq_true, decide_eq_true_eq]
    omega
  have hout : inBerlinDst 2025 3 28 hh mi = false := by
    apply Bool.eq_false_iff.mpr
    simp only [ne_eq, inBerlinDst, e1, e2, minutesOf, Bool.and_eq_true,
      decide_eq_true_eq, not_and]
    omega
  have hin2 : inBerlinDst 2025 10 24 hh mi = true := by
    simp only [inBerlinDst, e1, e2, minutesOf, Bool.and_eq_true, decide_eq_true_eq]
    omega
  have hout2 : inBerlinDst 2025 10 27 hh mi = false := by
    apply Bool.eq_false_iff.mpr
    simp only [ne_eq, inBerlinDst, e1, e2, minutesOf, Bool.and_eq_true,
      decide_eq_true_eq, not_and]
    omega
  refine ⟨rfl, ?_, ?_, rfl, rfl, rfl, rfl⟩
  · have hifT : (if (true = true) then (120 : Nat) else 60) = 120 := rfl
    have hifF : (if (false = true) then (120 : Nat) else 60) = 60 := rfl
    simp only [utcMinutes, berlinOffsetMinutes, minutesOf, hin, hout, hifT, hifF,
      eq_self_iff_true, if_true, if_false]
    omega
  · have hifT : (if (true = true) then (120 : Nat) else 60) = 120 := rfl
    have hifF : (if (false = true) then (120 : Nat) else 60) = 60 := rfl
    simp only [utcMinutes, berlinOffsetMinutes, minutesOf, hin2, hout2, hifT, hifF,
      eq_self_iff_true, if_true, if_false]
    omega

theorem c8_timezone_witness :
    (8 < 24 ∧ 0 < 60) ∧
    utcMinutes 2025 3 31 8 0 = utcMinutes 2025 3 28 8 0 + (3 * 1440 - 60) ∧
    ((eventLines "T" c8Entry "20250331").getD [])[3]? =
      some "DTSTART:20250331T060000Z" :=
  ⟨⟨by omega, by omega⟩, (c8_timezone 2025 3 31 8 0 (by omega) (by omega)).2.1,
    (c8_timezone 2025 3 31 8 0 (by omega) (by omega)).2.2.2.2.1⟩
